import Mathlib

/-!
Shallow embedding of `src/webservice.py` (`AuthorizedHumbleAPI`), the HTTP
client of the Humble Bundle GOG Galaxy integration, together with theorems
settling the behavioural claims about it.

Modelling conventions:
  * Async HTTP calls are modelled by passing the remote server's behaviour as
    an explicit function argument (request -> response outcome).
  * Python generators (`while True` loops with `yield`) become fuel-indexed
    recursive functions returning the list of yielded values; fuel exhaustion
    is a distinguished outcome that no theorem relies on.
  * Exceptions become `Except ApiError`.
  * External library primitives (Python's `json`, `base64`, the
    `unicode_escape` codec, `yarl` URL parsing) are modelled explicitly where
    their behaviour decides a claim, and taken as function parameters where
    only their success/failure shape matters.
-/

namespace HumbleAPI

/-- Errors surfaced by the client: `RuntimeError` preconditions,
`UnknownBackendResponse` contract violations, HTTP error statuses re-raised by
`raise_for_status`/`handle_exception`, transport failures, decoding failures
(`binascii.Error`, `json.JSONDecodeError`, `KeyError`), and the artificial
fuel-exhaustion outcome of the loop embedding. -/
inductive ApiError where
  | runtimeError : String → ApiError
  | unknownBackendResponse : String → ApiError
  | httpError : Nat → ApiError
  | transportError : String → ApiError
  | decodeError : String → ApiError
  | fuelExhausted : ApiError
deriving DecidableEq, Repr

/-! ### Trove chunk pagination (`get_trove_details`, lines 222-233) -/

/-- The JSON body answered by `api/v1/trove/chunk?...&index={i}`: either a
JSON array of trove items (items abstracted as `Nat` identifiers) or any
non-array JSON value, which the code rejects (`type(chunk_details) != list`). -/
inductive TroveChunkJson where
  | arr : List Nat → TroveChunkJson
  | nonList : TroveChunkJson
deriving DecidableEq, Repr

/-- Embeds `get_trove_details(self, from_chunk: int=0)`:

    index = from_chunk
    while True:
        chunk_details = await self._get_trove_details(index)
        if type(chunk_details) != list:
            raise UnknownBackendResponse("Unrecognized trove chunks structure")
        elif len(chunk_details) == 0:
            return
        yield chunk_details
        index += 1

`server i` is the parsed JSON of the chunk fetch at index `i`; the result is
the list of yielded values (each yielded value is a whole chunk). -/
def get_trove_details (server : Nat → TroveChunkJson) :
    Nat → Nat → Except ApiError (List (List Nat))
  | 0, _ => .error .fuelExhausted
  | fuel + 1, index =>
    match server index with
    | .nonList => .error (.unknownBackendResponse "Unrecognized trove chunks structure")
    | .arr chunk =>
      if chunk.length = 0 then .ok []
      else
        match get_trove_details server fuel (index + 1) with
        | .ok rest => .ok (chunk :: rest)
        | .error e => .error e

/-- The concrete trove backend of the spec's test scenario: chunk 0 is
`[a, b]` (here `[10, 20]`), chunk 1 and beyond are `[]`. -/
def troveSrvC1 : Nat → TroveChunkJson :=
  fun i => if i = 0 then .arr [10, 20] else .arr []

/-- C1, counterexample: with chunk 0 = `[10, 20]` and chunk 1 = `[]`, the
generator yields exactly ONE value — the whole chunk `[10, 20]` — not the two
items `10` then `20` as the claim states (`yield chunk_details` yields the
chunk list itself, it does not flatten it). -/
theorem get_trove_details_yields_chunks_not_items :
    get_trove_details troveSrvC1 5 0 = Except.ok [[10, 20]] ∧
    ¬ ∃ y₁ y₂ : List Nat, get_trove_details troveSrvC1 5 0 = Except.ok [y₁, y₂] := by
  refine ⟨rfl, ?_⟩
  rintro ⟨y₁, y₂, h⟩
  rw [show get_trove_details troveSrvC1 5 0 = Except.ok [[10, 20]] from rfl] at h
  simp at h

/-- C1, amended: in the spec scenario (chunk 0 = `[10, 20]`, chunk 1 = `[]`)
the generator yields exactly one value, the chunk `[10, 20]`, then terminates
without error; in general it starts at the caller-supplied index, terminates
exactly when the fetched chunk is an empty array, raises the
unknown-backend-response error on a non-array chunk, and otherwise yields the
whole chunk and continues at index + 1. -/
theorem get_trove_details_amended (server : Nat → TroveChunkJson) (fuel index : Nat) :
    get_trove_details troveSrvC1 5 0 = Except.ok [[10, 20]] ∧
    (server index = .arr [] → get_trove_details server (fuel + 1) index = .ok []) ∧
    (server index = .nonList →
      get_trove_details server (fuel + 1) index =
        .error (.unknownBackendResponse "Unrecognized trove chunks structure")) ∧
    (∀ chunk, server index = .arr chunk → chunk ≠ [] →
      get_trove_details server (fuel + 1) index =
        (get_trove_details server fuel (index + 1)).map (chunk :: ·)) := by
  refine ⟨rfl, ?_, ?_, ?_⟩
  · intro h
    simp [get_trove_details, h]
  · intro h
    simp [get_trove_details, h]
  · intro chunk h hne
    simp only [get_trove_details, h]
    rw [if_neg (by simpa [List.length_eq_zero] using hne)]
    cases get_trove_details server fuel (index + 1) <;> simp [Except.map]

/-- Witness for `get_trove_details_amended` at the concrete scenario server. -/
theorem get_trove_details_amended_witness :
    get_trove_details troveSrvC1 3 1 = .ok [] ∧
    get_trove_details troveSrvC1 3 0 = (get_trove_details troveSrvC1 2 1).map ([10, 20] :: ·) :=
  ⟨(get_trove_details_amended troveSrvC1 2 1).2.1 rfl,
   (get_trove_details_amended troveSrvC1 2 0).2.2.2 [10, 20] rfl (by decide)⟩

/-! ### Cursor-based pagination (`get_subscription_products_with_gamekeys`,
lines 120-140) -/

/-- The endpoint constant `_SUBSCRIPTION_PRODUCTS`. -/
def SUBSCRIPTION_PRODUCTS : String :=
  "api/v1/subscriptions/humble_monthly/subscription_products_with_gamekeys"

/-- Parsed JSON body of one subscription-products page: its `products` array
(products abstracted as `Nat` identifiers) and its `cursor` field. -/
structure SubProductsPage where
  products : List Nat
  cursor : String
deriving DecidableEq, Repr

/-- Embeds the loop body of `get_subscription_products_with_gamekeys`:

    cursor = ''
    while True:
        res = await self._request('GET', self._SUBSCRIPTION_PRODUCTS + f"/{cursor}",
                                  raise_for_status=False)
        if res.status == 404:
            return
        with handle_exception():
            res.raise_for_status()
        res_json = await res.json()
        for product in res_json['products']:
            yield product
        cursor = res_json['cursor']

`server path` gives the HTTP status and parsed body for a GET of `path`.
Returns the yielded products and the trace of requested paths. -/
def subscription_products_loop (server : String → Nat × SubProductsPage) :
    Nat → String → Except ApiError (List Nat) × List String
  | 0, _ => (.error .fuelExhausted, [])
  | fuel + 1, cursor =>
    let path := SUBSCRIPTION_PRODUCTS ++ "/" ++ cursor
    let (status, page) := server path
    if status = 404 then (.ok [], [path])
    else if 400 ≤ status then (.error (.httpError status), [path])
    else
      let (rest, trace) := subscription_products_loop server fuel page.cursor
      (rest.map (page.products ++ ·), path :: trace)

/-- Embeds `get_subscription_products_with_gamekeys` itself: the loop starts
with the empty cursor `cursor = ''`. -/
def get_subscription_products_with_gamekeys (server : String → Nat × SubProductsPage)
    (fuel : Nat) : Except ApiError (List Nat) × List String :=
  subscription_products_loop server fuel ""

/-- The concrete backend of the spec's test scenario: empty cursor answers
`{products: [a, b], cursor: "x"}`, cursor `x` answers
`{products: [c], cursor: "y"}`, cursor `y` answers HTTP 404. Here `a, b, c`
are `1, 2, 3`. -/
def subProdSrvC2 : String → Nat × SubProductsPage :=
  fun path =>
    if path = SUBSCRIPTION_PRODUCTS ++ "/" then (200, ⟨[1, 2], "x"⟩)
    else if path = SUBSCRIPTION_PRODUCTS ++ "/x" then (200, ⟨[3], "y"⟩)
    else (404, ⟨[], ""⟩)

/-- C2: in the spec scenario the generator yields exactly `a, b, c` and
terminates, requesting the endpoint with `/`, `/x`, `/y` appended in turn
(so it starts with an empty cursor and threads each response's own `cursor`
into the next request); in general a 404 status terminates cleanly, any other
status ≥ 400 is an error, and a success page contributes every element of its
`products` array before the loop continues with the page's `cursor` field. -/
theorem get_subscription_products_with_gamekeys_spec
    (server : String → Nat × SubProductsPage) (fuel : Nat) (cursor : String) :
    (get_subscription_products_with_gamekeys subProdSrvC2 5 =
      (.ok [1, 2, 3],
       [SUBSCRIPTION_PRODUCTS ++ "/", SUBSCRIPTION_PRODUCTS ++ "/x",
        SUBSCRIPTION_PRODUCTS ++ "/y"])) ∧
    (get_subscription_products_with_gamekeys server fuel =
      subscription_products_loop server fuel "") ∧
    ((server (SUBSCRIPTION_PRODUCTS ++ "/" ++ cursor)).1 = 404 →
      subscription_products_loop server (fuel + 1) cursor =
        (.ok [], [SUBSCRIPTION_PRODUCTS ++ "/" ++ cursor])) ∧
    (∀ status, (server (SUBSCRIPTION_PRODUCTS ++ "/" ++ cursor)).1 = status →
      status ≠ 404 → 400 ≤ status →
      subscription_products_loop server (fuel + 1) cursor =
        (.error (.httpError status), [SUBSCRIPTION_PRODUCTS ++ "/" ++ cursor])) ∧
    (∀ status page, server (SUBSCRIPTION_PRODUCTS ++ "/" ++ cursor) = (status, page) →
      status < 400 →
      subscription_products_loop server (fuel + 1) cursor =
        ((subscription_products_loop server fuel page.cursor).1.map (page.products ++ ·),
         (SUBSCRIPTION_PRODUCTS ++ "/" ++ cursor) ::
           (subscription_products_loop server fuel page.cursor).2)) := by
  refine ⟨rfl, rfl, ?_, ?_, ?_⟩
  · intro h
    simp [subscription_products_loop, h]
  · intro status h hne hge
    have h404 : ¬ (server (SUBSCRIPTION_PRODUCTS ++ "/" ++ cursor)).1 = 404 := by
      rw [h]; exact hne
    simp only [subscription_products_loop]
    rw [if_neg h404, if_pos (h ▸ hge), h]
  · intro status page h hlt
    have h404 : status ≠ 404 := by omega
    simp only [subscription_products_loop, h]
    rw [if_neg (by simpa using h404), if_neg (by omega)]

/-- Witness for `get_subscription_products_with_gamekeys_spec` at the
concrete scenario server. -/
theorem get_subscription_products_with_gamekeys_spec_witness :
    subscription_products_loop subProdSrvC2 3 "y" =
      (.ok [], [SUBSCRIPTION_PRODUCTS ++ "/y"]) ∧
    subscription_products_loop subProdSrvC2 3 "x" =
      ((subscription_products_loop subProdSrvC2 2 "y").1.map ([3] ++ ·),
       (SUBSCRIPTION_PRODUCTS ++ "/x") :: (subscription_products_loop subProdSrvC2 2 "y").2) :=
  ⟨(get_subscription_products_with_gamekeys_spec subProdSrvC2 2 "y").2.2.1 (by decide),
   (get_subscription_products_with_gamekeys_spec subProdSrvC2 2 "x").2.2.2.2
     200 ⟨[3], "y"⟩ (by decide) (by decide)⟩

/-! ### Continuation-object pagination (`get_previous_subscription_months`,
lines 151-164, and `get_subscription_history`, lines 142-149) -/

/-- One entry of a history response's `previous_months` array: the
`machine_name` the code reads, plus an abstract payload standing for the rest
of the JSON object. -/
structure PrevMonthEntry where
  machine_name : String
  payload : Nat
deriving DecidableEq, Repr

/-- The typed record `ChoiceMonth(prev_month)` wrapping a raw entry
(from `model.subscription`, a plain data-transfer record). -/
structure ChoiceMonth where
  raw : PrevMonthEntry
deriving DecidableEq, Repr

/-- The URL template `_SUBSCRIPTION_HISTORY.format(from_product)`. -/
def SUBSCRIPTION_HISTORY (from_product : String) : String :=
  "api/v1/subscriptions/humble_monthly/history?from_product=" ++ from_product

/-- HTTP status and parsed `previous_months` array of one
`get_subscription_history` response. -/
structure SubHistoryPage where
  status : Nat
  previous_months : List PrevMonthEntry

/-- Embeds `get_previous_subscription_months(self, from_product)`:

    while True:
        res = await self.get_subscription_history(from_product)
        if res.status == 404:
            return
        with handle_exception():
            res.raise_for_status()
        data = await res.json()
        if not data['previous_months']:
            return
        for prev_month in data['previous_months']:
            yield ChoiceMonth(prev_month)
        from_product = prev_month['machine_name']

`server from_product` is the response of `get_subscription_history`
(a GET of `SUBSCRIPTION_HISTORY from_product`). After the `for` loop the
Python variable `prev_month` holds the LAST entry of the page, so the next
`from_product` is the last yielded entry's `machine_name`. Returns the
yielded `ChoiceMonth`s and the trace of requested URLs. -/
def get_previous_subscription_months (server : String → SubHistoryPage) :
    Nat → String → Except ApiError (List ChoiceMonth) × List String
  | 0, _ => (.error .fuelExhausted, [])
  | fuel + 1, from_product =>
    let url := SUBSCRIPTION_HISTORY from_product
    let page := server from_product
    if page.status = 404 then (.ok [], [url])
    else if 400 ≤ page.status then (.error (.httpError page.status), [url])
    else
      match page.previous_months with
      | [] => (.ok [], [url])
      | pm :: pms =>
        let next := (pms.getLastD pm).machine_name
        let (rest, trace) := get_previous_subscription_months server fuel next
        (rest.map ((pm :: pms).map ChoiceMonth.mk ++ ·), url :: trace)

/-- A concrete history backend: asking from `start` answers the two months
`m1, m2`; asking from `m2` (the last entry of that page) answers 404. -/
def histSrvC8 : String → SubHistoryPage :=
  fun fp =>
    if fp = "start" then ⟨200, [⟨"m1", 11⟩, ⟨"m2", 12⟩]⟩
    else ⟨404, []⟩

/-- C8: the generator terminates exactly on a 404 status or an empty
`previous_months` array; otherwise it yields each entry wrapped in a
`ChoiceMonth` record and the next request's `from` parameter is the
machine-name of the LAST yielded entry of the current page (concretely:
after the page `[m1, m2]` fetched from `start`, the next URL is
`...?from_product=m2`, and the 404 there ends the sequence). -/
theorem get_previous_subscription_months_spec
    (server : String → SubHistoryPage) (fuel : Nat) (fp : String) :
    (get_previous_subscription_months histSrvC8 5 "start" =
      (.ok [⟨⟨"m1", 11⟩⟩, ⟨⟨"m2", 12⟩⟩],
       [SUBSCRIPTION_HISTORY "start", SUBSCRIPTION_HISTORY "m2"])) ∧
    ((server fp).status = 404 →
      get_previous_subscription_months server (fuel + 1) fp =
        (.ok [], [SUBSCRIPTION_HISTORY fp])) ∧
    ((server fp).status < 400 → (server fp).previous_months = [] →
      get_previous_subscription_months server (fuel + 1) fp =
        (.ok [], [SUBSCRIPTION_HISTORY fp])) ∧
    (∀ pm pms, (server fp).status < 400 → (server fp).previous_months = pm :: pms →
      get_previous_subscription_months server (fuel + 1) fp =
        ((get_previous_subscription_months server fuel (pms.getLastD pm).machine_name).1.map
            ((pm :: pms).map ChoiceMonth.mk ++ ·),
         SUBSCRIPTION_HISTORY fp ::
           (get_previous_subscription_months server fuel
             (pms.getLastD pm).machine_name).2)) := by
  refine ⟨rfl, ?_, ?_, ?_⟩
  · intro h
    simp [get_previous_subscription_months, h]
  · intro hlt hempty
    simp only [get_previous_subscription_months, hempty]
    rw [if_neg (by omega), if_neg (by omega)]
  · intro pm pms hlt hcons
    simp only [get_previous_subscription_months, hcons]
    rw [if_neg (by omega), if_neg (by omega)]

/-- Witness for `get_previous_subscription_months_spec` at the concrete
history backend. -/
theorem get_previous_subscription_months_spec_witness :
    get_previous_subscription_months histSrvC8 3 "m2" =
      (.ok [], [SUBSCRIPTION_HISTORY "m2"]) ∧
    get_previous_subscription_months histSrvC8 3 "start" =
      ((get_previous_subscription_months histSrvC8 2 "m2").1.map
          (([⟨"m1", 11⟩, ⟨"m2", 12⟩] : List PrevMonthEntry).map ChoiceMonth.mk ++ ·),
       SUBSCRIPTION_HISTORY "start" :: (get_previous_subscription_months histSrvC8 2 "m2").2) :=
  ⟨(get_previous_subscription_months_spec histSrvC8 2 "m2").2.1 (by decide),
   (get_previous_subscription_months_spec histSrvC8 2 "start").2.2.2
     ⟨"m1", 11⟩ [⟨"m2", 12⟩] (by decide) (by decide)⟩

/-! ### Session validity probe (`_is_session_valid`, lines 71-83) -/

/-- The constants `_AUTHORITY` and `_ORDER_LIST_URL`. -/
def AUTHORITY : String := "https://www.humblebundle.com/"

/-- Relative URL of the order list. -/
def ORDER_LIST_URL : String := "api/v1/user/order"

/-- Outcome of the single GET issued by `_is_session_valid`: success, an
`aiohttp.ClientResponseError` carrying an HTTP status, or any other
exception. -/
inductive RequestOutcome where
  | success : RequestOutcome
  | clientResponseError : Nat → RequestOutcome
  | otherFailure : String → RequestOutcome
deriving DecidableEq, Repr

/-- Embeds `_is_session_valid`:

    with handle_exception():
        try:
            await self._session.request('get', self._AUTHORITY + self._ORDER_LIST_URL)
        except aiohttp.ClientResponseError as e:
            if e.status == HTTPStatus.UNAUTHORIZED:
                return False
            raise
    return True

`server url` is the outcome of the GET of `url`; a re-raised
`ClientResponseError` and any other exception escape through
`handle_exception` (which logs and propagates). Returns the boolean result
(or the propagated error) and the trace of requested URLs. -/
def _is_session_valid (server : String → RequestOutcome) :
    Except ApiError Bool × List String :=
  let url := AUTHORITY ++ ORDER_LIST_URL
  (match server url with
   | .success => .ok true
   | .clientResponseError status =>
     if status = 401 then .ok false else .error (.httpError status)
   | .otherFailure msg => .error (.transportError msg),
   [url])

/-- C7: the probe issues exactly one GET of the order list; it returns
`false` exactly when that request fails with a `ClientResponseError` of
status 401; a successful response returns `true`; any other error
(`ClientResponseError` with a status other than 401, or any other failure)
is surfaced as an error, never converted to a boolean. -/
theorem is_session_valid_spec (server : String → RequestOutcome) :
    ((_is_session_valid server).2 = [AUTHORITY ++ ORDER_LIST_URL]) ∧
    ((_is_session_valid server).1 = .ok false ↔
      server (AUTHORITY ++ ORDER_LIST_URL) = .clientResponseError 401) ∧
    (server (AUTHORITY ++ ORDER_LIST_URL) = .success →
      (_is_session_valid server).1 = .ok true) ∧
    (∀ status, server (AUTHORITY ++ ORDER_LIST_URL) = .clientResponseError status →
      status ≠ 401 → (_is_session_valid server).1 = .error (.httpError status)) ∧
    (∀ msg, server (AUTHORITY ++ ORDER_LIST_URL) = .otherFailure msg →
      (_is_session_valid server).1 = .error (.transportError msg)) := by
  refine ⟨rfl, ?_, ?_, ?_, ?_⟩
  · constructor
    · intro h
      cases hs : server (AUTHORITY ++ ORDER_LIST_URL) with
      | success => simp [_is_session_valid, hs] at h
      | clientResponseError status =>
        by_cases h401 : status = 401
        · subst h401; rfl
        · simp [_is_session_valid, hs, h401] at h
      | otherFailure msg => simp [_is_session_valid, hs] at h
    · intro h
      simp [_is_session_valid, h]
  · intro h
    simp [_is_session_valid, h]
  · intro status h hne
    simp [_is_session_valid, h, hne]
  · intro msg h
    simp [_is_session_valid, h]

/-- Witness for `is_session_valid_spec`: a backend answering 401 yields
`false`; one answering 500 yields the surfaced HTTP error. -/
theorem is_session_valid_spec_witness :
    (_is_session_valid (fun _ => .clientResponseError 401)).1 = .ok false ∧
    (_is_session_valid (fun _ => .clientResponseError 500)).1 = .error (.httpError 500) ∧
    (_is_session_valid (fun _ => .success)).1 = .ok true :=
  ⟨(is_session_valid_spec (fun _ => .clientResponseError 401)).2.1.mpr rfl,
   (is_session_valid_spec (fun _ => .clientResponseError 500)).2.2.2.1 500 rfl (by decide),
   (is_session_valid_spec (fun _ => .success)).2.2.1 rfl⟩

/-! ### Download workflow (`sign_download`, `_reedem_download`,
`_filename_from_web_link`, `sign_url_subproduct`, `sign_url_trove`,
lines 235-281) -/

/-- The fields of `model.download.DownloadStructItem` read by this module:
only its optional `web` link (the record is an external plain data-transfer
object; `download.web is None` is the code's precondition check, so `web` is
an `Option String` that may also hold an empty string). -/
structure DownloadStructItem where
  web : Option String
deriving DecidableEq, Repr

/-- The fields of `model.download.TroveDownload` read by this module: its
`machine_name` and its optional `web` link. -/
structure TroveDownload where
  machine_name : String
  web : Option String
deriving DecidableEq, Repr

/-- A network call issued by the download workflow: a POST of
`api/v1/user/download/sign` with `machine_name`/`filename` parameters, or a
POST of `humbler/redeemdownload` with the `download` parameter and the
caller-supplied `custom_data` fields. -/
inductive ApiCall where
  | sign : String → String → ApiCall
  | redeem : String → List (String × String) → ApiCall
deriving DecidableEq, Repr

/-- Remote behaviour of the two download endpoints: `signResult m f` is the
parsed JSON map answered by the sign POST (or its error), `redeemContent ps`
is the raw body answered by the redeem POST with parameter list `ps` (or its
transport error). -/
structure SignServer where
  signResult : String → String → Except ApiError (List (String × String))
  redeemContent : List (String × String) → Except ApiError String

/-- Embeds `sign_download(self, machine_name, filename)`: one POST of the
sign endpoint, returning its parsed JSON and the call trace. -/
def sign_download (srv : SignServer) (machine_name filename : String) :
    Except ApiError (List (String × String)) × List ApiCall :=
  (srv.signResult machine_name filename, [.sign machine_name filename])

/-- Embeds `_reedem_download(self, download_machine_name, custom_data)`:

    params = {'download': download_machine_name, 'download_page': "false"}
    params.update(custom_data)
    res = await self._request('post', self._HUMBLER_REDEEM_DOWNLOAD, params=params)
    content = await res.read()
    if content != b"{'success': True}":
        raise UnknownBackendResponse(...)
-/
def _reedem_download (srv : SignServer) (download_machine_name : String)
    (custom_data : List (String × String)) : Except ApiError Unit × List ApiCall :=
  let params := [("download", download_machine_name), ("download_page", "false")]
      ++ custom_data
  let calls := [ApiCall.redeem download_machine_name custom_data]
  match srv.redeemContent params with
  | .error e => (.error e, calls)
  | .ok content =>
    if content = "\x7b'success': True\x7d" then (.ok (), calls)
    else (.error (.unknownBackendResponse
        ("unexpected response while reedem trove download: " ++ content)), calls)

/-- Splitting a character list on a separator, with Python `str.split`
semantics: the empty input gives one empty group. -/
def splitOnChar (sep : Char) : List Char → List (List Char)
  | [] => [[]]
  | c :: cs =>
    let r := splitOnChar sep cs
    if c = sep then [] :: r
    else
      match r with
      | [] => [[c]]
      | g :: gs => (c :: g) :: gs

/-- Embeds `_filename_from_web_link(link) = yarl.URL(link).parts[-1]`: the
last path segment of the link (query string and fragment are not part of
`yarl`'s `parts`). -/
def _filename_from_web_link (link : String) : String :=
  ((splitOnChar '/' (link.toList.takeWhile (fun c => c ≠ '?' ∧ c ≠ '#'))).getLastD []).asString

/-- Embeds `sign_url_subproduct(self, download, download_machine_name)`:

    if download.web is None:
        raise RuntimeError(f'No download web link in download struct item {download}')
    filename = self._filename_from_web_link(download.web)
    urls = await self.sign_download(download_machine_name, filename)
    try:
        await self._reedem_download(download_machine_name, {'download_url_file': filename})
    except Exception as e:
        logger.error(repr(e) + '. Error ignored')
    return urls
-/
def sign_url_subproduct (srv : SignServer) (download : DownloadStructItem)
    (download_machine_name : String) :
    Except ApiError (List (String × String)) × List ApiCall :=
  match download.web with
  | none => (.error (.runtimeError "No download web link in download struct item"), [])
  | some web =>
    let filename := _filename_from_web_link web
    let (urls, calls₁) := sign_download srv download_machine_name filename
    match urls with
    | .error e => (.error e, calls₁)
    | .ok urls =>
      let (_, calls₂) :=
        _reedem_download srv download_machine_name [("download_url_file", filename)]
      (.ok urls, calls₁ ++ calls₂)

/-- Embeds `sign_url_trove(self, download, product_machine_name)`:

    if download.web is None:
        raise RuntimeError(f'No download web link in download struct item {download}')
    urls = await self.sign_download(download.machine_name, download.web)
    try:
        await self._reedem_download(download.machine_name, {'product': product_machine_name})
    except Exception as e:
        logger.error(repr(e) + '. Error ignored')
    return urls
-/
def sign_url_trove (srv : SignServer) (download : TroveDownload)
    (product_machine_name : String) :
    Except ApiError (List (String × String)) × List ApiCall :=
  match download.web with
  | none => (.error (.runtimeError "No download web link in download struct item"), [])
  | some web =>
    let (urls, calls₁) := sign_download srv download.machine_name web
    match urls with
    | .error e => (.error e, calls₁)
    | .ok urls =>
      let (_, calls₂) :=
        _reedem_download srv download.machine_name [("product", product_machine_name)]
      (.ok urls, calls₁ ++ calls₂)

/-- A concrete sign/redeem backend for counterexamples and witnesses: the
sign endpoint always answers the map `[("web", "signed")]`, the redeem
endpoint answers a body different from the success marker. -/
def signSrvK : SignServer :=
  ⟨fun _ _ => .ok [("web", "signed")], fun _ => .ok "oops"⟩

/-- C3, counterexample: a download record whose web link is the EMPTY string
(`web = some ""`) is not `None`, so both `sign_url_subproduct` and
`sign_url_trove` pass the precondition check and do issue the sign network
call (and even return its result) instead of failing before any network
call, refuting the claim for empty-but-present links. -/
theorem sign_url_empty_web_makes_network_call :
    sign_url_subproduct signSrvK ⟨some ""⟩ "m" =
      (.ok [("web", "signed")],
       [.sign "m" "", .redeem "m" [("download_url_file", "")]]) ∧
    sign_url_trove signSrvK ⟨"tm", some ""⟩ "p" =
      (.ok [("web", "signed")],
       [.sign "tm" "", .redeem "tm" [("product", "p")]]) ∧
    (sign_url_subproduct signSrvK ⟨some ""⟩ "m").2 ≠ [] ∧
    (sign_url_trove signSrvK ⟨"tm", some ""⟩ "p").2 ≠ [] := by
  refine ⟨rfl, rfl, ?_, ?_⟩ <;> decide

/-- C3, amended: both operations fail immediately with the `RuntimeError`
precondition error, before any network call, exactly when the download
record's web link is ABSENT (`None`); a present-but-empty web link is not
rejected. -/
theorem sign_url_requires_web_link_amended (srv : SignServer)
    (d : DownloadStructItem) (td : TroveDownload) (dmn pmn : String) :
    (d.web = none →
      sign_url_subproduct srv d dmn =
        (.error (.runtimeError "No download web link in download struct item"), [])) ∧
    (td.web = none →
      sign_url_trove srv td pmn =
        (.error (.runtimeError "No download web link in download struct item"), [])) ∧
    (∀ w, d.web = some w → (sign_url_subproduct srv d dmn).2 ≠ []) ∧
    (∀ w, td.web = some w → (sign_url_trove srv td pmn).2 ≠ []) := by
  refine ⟨?_, ?_, ?_, ?_⟩
  · intro h
    simp [sign_url_subproduct, h]
  · intro h
    simp [sign_url_trove, h]
  · intro w h
    simp only [sign_url_subproduct, h, sign_download]
    cases srv.signResult dmn (_filename_from_web_link w) <;> simp
  · intro w h
    simp only [sign_url_trove, h, sign_download]
    cases srv.signResult td.machine_name w <;> simp

/-- Witness for `sign_url_requires_web_link_amended` at concrete records. -/
theorem sign_url_requires_web_link_amended_witness :
    sign_url_subproduct signSrvK ⟨none⟩ "m" =
      (.error (.runtimeError "No download web link in download struct item"), []) ∧
    sign_url_trove signSrvK ⟨"tm", none⟩ "p" =
      (.error (.runtimeError "No download web link in download struct item"), []) ∧
    (sign_url_subproduct signSrvK ⟨some "https://h/f.exe"⟩ "m").2 ≠ [] :=
  ⟨(sign_url_requires_web_link_amended signSrvK ⟨none⟩ ⟨"tm", none⟩ "m" "p").1 rfl,
   (sign_url_requires_web_link_amended signSrvK ⟨none⟩ ⟨"tm", none⟩ "m" "p").2.1 rfl,
   (sign_url_requires_web_link_amended signSrvK ⟨some "https://h/f.exe"⟩ ⟨"tm", none⟩
     "m" "p").2.2.1 "https://h/f.exe" rfl⟩

/-- C5: whenever the sign call succeeds with map `m`, both
`sign_url_subproduct` and `sign_url_trove` return `.ok m` for EVERY possible
behaviour of the redeem endpoint (`srv.redeemContent` is universally
quantified, so transport failures and bodies differing from the literal
success marker are all covered): a redeem failure is never propagated. -/
theorem sign_url_redeem_failure_suppressed (srv : SignServer)
    (d : DownloadStructItem) (td : TroveDownload) (dmn pmn w m : _) :
    (d.web = some w → srv.signResult dmn (_filename_from_web_link w) = .ok m →
      (sign_url_subproduct srv d dmn).1 = .ok m) ∧
    (td.web = some w → srv.signResult td.machine_name w = .ok m →
      (sign_url_trove srv td pmn).1 = .ok m) := by
  constructor
  · intro hw hs
    simp [sign_url_subproduct, hw, sign_download, hs]
  · intro hw hs
    simp [sign_url_trove, hw, sign_download, hs]

/-- Witness for `sign_url_redeem_failure_suppressed`: with a redeem endpoint
answering the wrong body `"oops"`, both operations still return the signed
map. -/
theorem sign_url_redeem_failure_suppressed_witness :
    (sign_url_subproduct signSrvK ⟨some "https://h/f.exe"⟩ "m").1 =
      .ok [("web", "signed")] ∧
    (sign_url_trove signSrvK ⟨"tm", some "f.exe"⟩ "p").1 = .ok [("web", "signed")] :=
  ⟨(sign_url_redeem_failure_suppressed signSrvK ⟨some "https://h/f.exe"⟩ ⟨"tm", some "f.exe"⟩
      "m" "p" "https://h/f.exe" [("web", "signed")]).1 rfl rfl,
   (sign_url_redeem_failure_suppressed signSrvK ⟨some "https://h/f.exe"⟩ ⟨"tm", some "f.exe"⟩
      "m" "p" "f.exe" [("web", "signed")]).2 rfl rfl⟩

/-- C10: when the trove download record's web field is present, the value
returned by `sign_url_trove` is exactly `signResult download.machine_name
download.web` (the sign result for the pair taken from the record itself,
the raw web value being the filename); the first network call is that sign
call; and the `product_machine_name` argument — used only inside the
advisory redeem call — never affects the returned value. -/
theorem sign_url_trove_signs_download_fields (srv : SignServer)
    (td : TroveDownload) (pmn pmn' w : String) :
    td.web = some w →
    ((sign_url_trove srv td pmn).1 = srv.signResult td.machine_name w ∧
     (sign_url_trove srv td pmn).2.head? = some (.sign td.machine_name w) ∧
     (sign_url_trove srv td pmn).1 = (sign_url_trove srv td pmn').1) := by
  intro hw
  refine ⟨?_, ?_, ?_⟩ <;>
    · simp only [sign_url_trove, hw, sign_download]
      cases srv.signResult td.machine_name w <;> simp

/-- Witness for `sign_url_trove_signs_download_fields` at a concrete record:
two different product machine names give the same returned value. -/
theorem sign_url_trove_signs_download_fields_witness :
    (sign_url_trove signSrvK ⟨"tm", some "game.zip"⟩ "prodA").1 =
      signSrvK.signResult "tm" "game.zip" ∧
    (sign_url_trove signSrvK ⟨"tm", some "game.zip"⟩ "prodA").1 =
      (sign_url_trove signSrvK ⟨"tm", some "game.zip"⟩ "prodB").1 :=
  ⟨(sign_url_trove_signs_download_fields signSrvK ⟨"tm", some "game.zip"⟩
      "prodA" "prodB" "game.zip" rfl).1,
   (sign_url_trove_signs_download_fields signSrvK ⟨"tm", some "game.zip"⟩
      "prodA" "prodB" "game.zip" rfl).2.2⟩

/-! ### Webpack scraper (`_get_webpack_data`, lines 166-176) -/

/-- Embeds Python `txt.find(search)`: the lowest index at which `search`
occurs in `txt`, or `-1` when it does not occur. -/
def strFind (txt pat : List Char) : Int :=
  match (List.range (txt.length + 1)).find? (fun i => pat.isPrefixOf (txt.drop i)) with
  | some i => (i : Int)
  | none => -1

/-- Embeds Python `str.strip()`: leading and trailing whitespace removed. -/
def pyStrip (s : List Char) : List Char :=
  ((s.dropWhile Char.isWhitespace).reverse.dropWhile Char.isWhitespace).reverse

/-- The marker substring built by the f-string
`f'<script id="(webpack_id)" type="application/json">'`. -/
def webpackSearch (webpack_id : List Char) : List Char :=
  "<script id=\"".toList ++ webpack_id ++ "\" type=\"application/json\">".toList

/-- Embeds `_get_webpack_data(self, path, webpack_id)` after the page text
`txt` has been fetched:

    search = f'<script id="(webpack_id)" type="application/json">'
    json_start = txt.find(search) + len(search)
    candidate = txt[json_start:].strip()
    try:
        parsed, _ = json.JSONDecoder().raw_decode(candidate)
    except json.decoder.JSONDecodeError as e:
        raise UnknownBackendResponse('cannot parse webpack data') from e
    return parsed

`rawDecode` is the external `json.JSONDecoder().raw_decode`: the first
complete JSON value of the text together with the remaining text, or `none`
on a decode error (values abstracted as `α`). Note `txt.find` yields `-1`
when the marker is absent, so `json_start` is then `len(search) - 1 ≥ 0`;
Python's slice `txt[json_start:]` for a non-negative index is `List.drop`. -/
def _get_webpack_data {α : Type} (rawDecode : List Char → Option (α × List Char))
    (txt : List Char) (webpack_id : List Char) : Except ApiError α :=
  let search := webpackSearch webpack_id
  let json_start := strFind txt search + search.length
  let candidate := pyStrip (txt.drop json_start.toNat)
  match rawDecode candidate with
  | some (parsed, _) => .ok parsed
  | none => .error (.unknownBackendResponse "cannot parse webpack data")

/-- A page that does NOT contain the marker for webpack id `x` (it contains
no `<` at all): 38 filler characters — `len(search) - 1` for this marker —
followed by the JSON text of an empty object. -/
def webpackBugPage : List Char := List.replicate 38 'a' ++ "\x7b\x7d".toList

/-- C4: the claim is refuted by the code's unchecked `txt.find`: on
`webpackBugPage` the marker does not occur (`strFind` is `-1`), yet
`_get_webpack_data` does NOT fail — `json_start` becomes `len(search) - 1 =
38`, the candidate is the valid JSON text after the filler, and the scraper
returns the decoded value for any decoder that parses the empty-object text
(as Python's `raw_decode` does). -/
theorem get_webpack_data_missing_marker_can_succeed {α : Type}
    (d : List Char → Option (α × List Char)) (v : α) (r : List Char)
    (h : d "\x7b\x7d".toList = some (v, r)) :
    strFind webpackBugPage (webpackSearch "x".toList) = -1 ∧
    _get_webpack_data d webpackBugPage "x".toList = .ok v := by
  constructor
  · decide
  · have hred : _get_webpack_data d webpackBugPage "x".toList =
        (match d "\x7b\x7d".toList with
         | some (p, _) => Except.ok p
         | none => Except.error (.unknownBackendResponse "cannot parse webpack data")) := rfl
    rw [hred, h]

/-- Concrete stand-in for `json.JSONDecoder().raw_decode` at the inputs of
the C4 scenario: the empty-object text parses to a value (abstracted as `0`)
with no remainder; everything else is a decode error. -/
def toyRawDecode : List Char → Option (Nat × List Char) :=
  fun s => if s = "\x7b\x7d".toList then some (0, []) else none

/-- Witness for `get_webpack_data_missing_marker_can_succeed` with the
concrete decoder. -/
theorem get_webpack_data_missing_marker_can_succeed_witness :
    _get_webpack_data toyRawDecode webpackBugPage "x".toList = .ok 0 :=
  (get_webpack_data_missing_marker_can_succeed toyRawDecode 0 [] (by decide)).2

/-! ### Authentication (`is_authenticated` line 61-63, `_decode_user_id`
lines 85-89, `authenticate` lines 91-101) -/

/-- The standard base64 alphabet, indexed by sextet value. -/
def B64_ALPHABET : List Char :=
  "ABCDEFGHIJKLMNOPQRSTUVWXYZabcdefghijklmnopqrstuvwxyz0123456789+/".toList

/-- Sextet value of an alphabet character; `none` for every other character
(including the padding character `'='`). -/
def charToSextet (c : Char) : Option Nat :=
  B64_ALPHABET.findIdx? (· == c)

/-- Reassembles bytes from base64 sextets, `binascii` style: each group of
four sextets gives three bytes; a trailing group of two or three sextets
gives one or two bytes; a trailing single sextet is an error. -/
def sextetsToBytes : List Nat → Option (List Nat)
  | [] => some []
  | [_] => none
  | [a, b] => some [a * 4 + b / 16]
  | [a, b, c] => some [a * 4 + b / 16, b % 16 * 16 + c / 4]
  | a :: b :: c :: d :: rest =>
    (sextetsToBytes rest).map
      (fun bs => (a * 4 + b / 16) :: (b % 16 * 16 + c / 4) :: (c % 4 * 64 + d) :: bs)

/-- Models the external Python `base64.b64decode` in its default lenient
mode, as relied on by `_decode_user_id`: characters outside the alphabet are
discarded before decoding, surplus `'='` padding is ignored, but missing
padding (fewer `'='` than the data length requires) and a data length of
1 mod 4 are `binascii.Error`s. -/
def b64decode (s : List Char) : Option (List Nat) :=
  let data := s.filterMap charToSextet
  let pads := (s.filter (· == '=')).length
  if (4 - data.length % 4) % 4 ≤ pads then sextetsToBytes data else none

/-- Embeds Python `s.split(sep)[0]`: the prefix before the first separator
(the whole string when the separator does not occur). -/
def pySplitFirst (sep : Char) (s : List Char) : List Char :=
  s.takeWhile (· != sep)

/-- Embeds `_decode_user_id(self, _simpleauth_sess)`:

    info = _simpleauth_sess.split('|')[0]
    info += '=='  # ensure full padding
    decoded = json.loads(base64.b64decode(info))
    return decoded['user_id']

`jsonLoads` is the external `json.loads` composed with the dictionary view:
the decoded bytes as an association list of string keys and numeric values,
`none` standing for a JSON parse failure or a non-dict value (both make the
Python lookup raise). A base64 error, a JSON failure, and a missing
`'user_id'` key each raise — become `Except.error`. -/
def _decode_user_id (jsonLoads : List Nat → Option (List (String × Nat)))
    (sess : List Char) : Except ApiError Nat :=
  let info := pySplitFirst '|' sess
  let info := info ++ "==".toList
  match b64decode info with
  | none => .error (.decodeError "binascii.Error")
  | some bytes =>
    match jsonLoads bytes with
    | none => .error (.decodeError "json.JSONDecodeError or not a dict")
    | some obj =>
      match obj.find? (fun kv => kv.1 == "user_id") with
      | none => .error (.decodeError "KeyError: user_id")
      | some kv => .ok kv.2

/-- The session cookie jar: cookie names bound to values. `update_cookies`
overwrites the binding of the given cookie's name. -/
def updateCookies (jar : List (String × List Char)) (name : String)
    (val : List Char) : List (String × List Char) :=
  (name, val) :: jar.filter (fun kv => kv.1 != name)

/-- Embeds the property `is_authenticated = bool(self._session.cookie_jar)`:
true iff the jar is non-empty. -/
def is_authenticated (jar : List (String × List Char)) : Bool :=
  !jar.isEmpty

/-- The host-supplied auth cookie record `{name, value}`. -/
structure AuthCookie where
  name : String
  value : String

/-- Embeds `authenticate(self, auth_cookie)`:

    cookie = SimpleCookie()
    cookie_val = bytes(auth_cookie['value'], "utf-8").decode("unicode_escape")
    cookie_val = cookie_val.replace('"', '')
    cookie[auth_cookie['name']] = cookie_val
    self._session.cookie_jar.update_cookies(cookie)
    return self._decode_user_id(cookie_val)

`unescape` is the external `unicode_escape` codec. The cookie jar is updated
BEFORE the user id is decoded, so the function returns the updated jar
together with the decode outcome. -/
def authenticate (jsonLoads : List Nat → Option (List (String × Nat)))
    (unescape : List Char → List Char) (jar : List (String × List Char))
    (auth_cookie : AuthCookie) :
    List (String × List Char) × Except ApiError Nat :=
  let cookie_val := (unescape auth_cookie.value.toList).filter (· != '"')
  let jar' := updateCookies jar auth_cookie.name cookie_val
  (jar', _decode_user_id jsonLoads cookie_val)

/-- Python's `split('|')[0]` of `seg ++ '|' ++ rest` is `seg` when `seg`
contains no separator. -/
theorem pySplitFirst_append (sep : Char) (seg rest : List Char) (h : sep ∉ seg) :
    pySplitFirst sep (seg ++ sep :: rest) = seg := by
  induction seg with
  | nil => simp [pySplitFirst, List.takeWhile]
  | cons c cs ih =>
    have hc : c ≠ sep := fun hcs => h (hcs ▸ List.mem_cons_self c cs)
    have ihh := ih (fun hm => h (List.mem_cons_of_mem c hm))
    simp only [pySplitFirst, List.cons_append, List.takeWhile] at ihh ⊢
    rw [show (c != sep) = true by simpa using hc]
    simpa using ihh

/-- C6: (a) for a token whose first `'|'`-segment is valid base64 with its
padding missing (data length 2 or 3 mod 4 and no `'='`), decoding the bare
segment fails, but `_decode_user_id` — which appends `'=='` to restore
padding — returns the `user_id` of the decoded JSON object; (b) for a cookie
value wrapped in literal quote characters, `authenticate` strips the quotes
and decodes the unquoted token; (c) whenever `_decode_user_id` returns an
id, that id is exactly the `user_id` value of the JSON object decoded from
the padded base64 of the first segment — a malformed token (bad base64,
non-JSON payload, missing `user_id` key) always raises a decode error and
never yields a wrong id. -/
theorem decode_user_id_spec
    (jsonLoads : List Nat → Option (List (String × Nat)))
    (unescape : List Char → List Char) (jar : List (String × List Char))
    (name : String) (seg rest sess : List Char) (bytes : List Nat)
    (obj : List (String × Nat)) (uid : Nat) :
    (('|' ∉ seg) → ('=' ∉ seg) →
      ((seg.filterMap charToSextet).length % 4 = 2 ∨
       (seg.filterMap charToSextet).length % 4 = 3) →
      sextetsToBytes (seg.filterMap charToSextet) = some bytes →
      jsonLoads bytes = some obj →
      obj.find? (fun kv => kv.1 == "user_id") = some ("user_id", uid) →
      b64decode seg = none ∧
      _decode_user_id jsonLoads (seg ++ '|' :: rest) = .ok uid) ∧
    (∀ t : List Char, unescape ('"' :: t ++ ['"']) = '"' :: t ++ ['"'] →
      '"' ∉ t →
      (authenticate jsonLoads unescape jar ⟨name, ('"' :: t ++ ['"']).asString⟩).2 =
        _decode_user_id jsonLoads t) ∧
    (∀ uid', _decode_user_id jsonLoads sess = .ok uid' →
      ∃ bs ob kv, b64decode (pySplitFirst '|' sess ++ "==".toList) = some bs ∧
        jsonLoads bs = some ob ∧
        ob.find? (fun kv => kv.1 == "user_id") = some kv ∧
        kv.1 = "user_id" ∧ kv.2 = uid') := by
  refine ⟨?_, ?_, ?_⟩
  · intro hpipe hpad hrem hsex hjson hfind
    have hpads0 : (seg.filter (· == '=')).length = 0 := by
      rw [List.length_eq_zero, List.filter_eq_nil_iff]
      intro a ha
      simp only [beq_iff_eq]
      exact fun hq => hpad (hq ▸ ha)
    constructor
    · simp only [b64decode, hpads0]
      rw [if_neg (by omega)]
    · have hsplit := pySplitFirst_append '|' seg rest hpipe
      have hdata : ((seg ++ "==".toList).filterMap charToSextet) =
          seg.filterMap charToSextet := by
        rw [List.filterMap_append]
        simp [show charToSextet '=' = none from by decide]
      have hpads2 : ((seg ++ "==".toList).filter (· == '=')).length = 2 := by
        rw [List.filter_append, List.length_append, hpads0]
        decide
      have hdec : b64decode (seg ++ "==".toList) = some bytes := by
        simp only [b64decode, hdata, hpads2]
        rw [if_pos (by omega)]
        exact hsex
      simp only [_decode_user_id, hsplit, hdec, hjson, hfind]
  · intro t hu hq
    have htl : (('"' :: t ++ ['"']).asString).toList = '"' :: t ++ ['"'] := rfl
    have hself : t.filter (· != '"') = t :=
      List.filter_eq_self.mpr (fun a ha => by
        simp only [bne_iff_ne, ne_eq]
        exact fun hqa => hq (hqa ▸ ha))
    have hfil : (('"' :: t ++ ['"']).filter (· != '"')) = t := by
      calc ('"' :: (t ++ ['"'])).filter (· != '"')
          = (t ++ ['"']).filter (· != '"') := by simp
        _ = t.filter (· != '"') ++ (['"'] : List Char).filter (· != '"') :=
            List.filter_append ..
        _ = t := by
            rw [hself, show (['"'] : List Char).filter (· != '"') = [] from by decide]
            simp
    simp only [authenticate, htl, hu, hfil]
  · intro uid' h
    simp only [_decode_user_id] at h
    cases hb : b64decode (pySplitFirst '|' sess ++ "==".toList) with
    | none => rw [hb] at h; simp at h
    | some bs =>
      rw [hb] at h
      cases hj : jsonLoads bs with
      | none => simp [hj] at h
      | some ob =>
        cases hf : ob.find? (fun kv => kv.1 == "user_id") with
        | none => simp [hj, hf] at h
        | some kv =>
          simp only [hj, hf] at h
          have hk : (kv.1 == "user_id") = true := by
            have := List.find?_some hf
            simpa using this
          refine ⟨bs, ob, kv, rfl, hj, hf, by simpa using hk, ?_⟩
          simpa using h

/-- Witness for `decode_user_id_spec` at a concrete token: segment `"QQ"`
(valid base64 of the byte 65, missing padding), a `json.loads` that parses
`[65]` as the object with `user_id = 7`, and a quoted cookie value. -/
theorem decode_user_id_spec_witness :
    (b64decode "QQ".toList = none ∧
      _decode_user_id (fun bs => if bs = [65] then some [("user_id", 7)] else none)
        ("QQ".toList ++ '|' :: "rest".toList) = .ok 7) ∧
    ((authenticate (fun bs => if bs = [65] then some [("user_id", 7)] else none)
        id [] ⟨"n", ('"' :: "QQ".toList ++ ['"']).asString⟩).2 =
      _decode_user_id (fun bs => if bs = [65] then some [("user_id", 7)] else none)
        "QQ".toList) ∧
    (∃ bs ob kv,
      b64decode (pySplitFirst '|' ("QQ".toList ++ '|' :: "rest".toList) ++ "==".toList) =
        some bs ∧
      (fun bs => if bs = [65] then some [("user_id", 7)] else none) bs = some ob ∧
      ob.find? (fun kv => kv.1 == "user_id") = some kv ∧
      kv.1 = "user_id" ∧ kv.2 = 7) := by
  refine ⟨?_, ?_, ?_⟩
  · exact (decode_user_id_spec (fun bs => if bs = [65] then some [("user_id", 7)] else none)
      id [] "n" "QQ".toList "rest".toList [] [65] [("user_id", 7)] 7).1
      (by decide) (by decide) (by decide) (by decide) (by decide) (by decide)
  · exact (decode_user_id_spec (fun bs => if bs = [65] then some [("user_id", 7)] else none)
      id [] "n" "QQ".toList "rest".toList [] [65] [("user_id", 7)] 7).2.1
      "QQ".toList rfl (by decide)
  · exact (decode_user_id_spec (fun bs => if bs = [65] then some [("user_id", 7)] else none)
      id [] "n" "QQ".toList "rest".toList ("QQ".toList ++ '|' :: "rest".toList)
      [65] [("user_id", 7)] 7).2.2 7 rfl

/-- C9: authentication is not atomic on failure: whenever the decode step of
`authenticate` fails, the returned cookie jar has nevertheless already been
updated with the reconstructed cookie (the jar update precedes the decode),
so `is_authenticated` is `true` after the failed `authenticate` call. -/
theorem authenticate_not_atomic_on_failure
    (jsonLoads : List Nat → Option (List (String × Nat)))
    (unescape : List Char → List Char) (jar : List (String × List Char))
    (c : AuthCookie) (e : ApiError)
    (h : (authenticate jsonLoads unescape jar c).2 = .error e) :
    (authenticate jsonLoads unescape jar c).1 =
      updateCookies jar c.name ((unescape c.value.toList).filter (· != '"')) ∧
    is_authenticated (authenticate jsonLoads unescape jar c).1 = true :=
  ⟨rfl, by simp [authenticate, updateCookies, is_authenticated]⟩

/-- Witness for `authenticate_not_atomic_on_failure`: the value `"QQQQQ"`
(data length 1 mod 4) makes decoding fail, yet the jar ends up non-empty. -/
theorem authenticate_not_atomic_on_failure_witness :
    is_authenticated
      (authenticate (fun _ => none) id [] ⟨"_simpleauth_sess", "QQQQQ"⟩).1 = true :=
  (authenticate_not_atomic_on_failure (fun _ => none) id []
    ⟨"_simpleauth_sess", "QQQQQ"⟩ (.decodeError "binascii.Error") rfl).2

end HumbleAPI
